import Mathlib

/-!
Shallow embedding of the CRUD services in this repository.

Each Python module is modelled as a namespace.  A SQL table keyed on a
string primary key is modelled as a `List` of row structures in insertion
order; `query.filter(...).first()` becomes `List.find?`, `db.add` + commit
becomes appending to the list, the attribute-by-attribute update of the
fetched row becomes replacing the first matching row, and `db.delete`
becomes `List.eraseP`.  Endpoints that return plain strings return
`String × store`; endpoints that raise `HTTPException` return
`Except HTTPError response × store`.  Pydantic v1 field validators are
embedded one function per field; model validation runs every field's
validator and collects the failures of all fields in declaration order
(pydantic v1 aggregates one error per failing field).  `datetime` values
are modelled as integers, `float` values as rationals.
-/

deriving instance DecidableEq for Except

namespace Spec2Proof

/-- Error raised through FastAPI's HTTPException: a status code and a detail string. -/
structure HTTPError where
  status_code : Nat
  detail : String
deriving DecidableEq, Repr

/-- A single pydantic validation failure: the offending field and its message. -/
structure ValidationFailure where
  field : String
  msg : String
deriving DecidableEq, Repr

/-- Collect the failure of one field's validator, tagged with the field name. -/
def collectErr {α : Type} (field : String) (r : Except String α) : List ValidationFailure :=
  match r with
  | .error m => [⟨field, m⟩]
  | .ok _ => []

/-- Embedding of `if x: query = query.filter(col == x)` for an optional string
query parameter: a missing parameter (`None`) or an empty string is falsy in
Python, so no constraint is applied; otherwise rows are filtered by equality. -/
def filterIf {α : Type} (f : Option String) (proj : α → String) (q : List α) : List α :=
  match f with
  | none => q
  | some s => if s = "" then q else q.filter (fun r => proj r == s)

/-- Python's `str.strip()`: drop leading and trailing whitespace. -/
def pyStrip (s : String) : String :=
  ⟨((s.data.dropWhile Char.isWhitespace).reverse.dropWhile Char.isWhitespace).reverse⟩

/-- Replace the first element satisfying `p` by `a` (the fetched row is
mutated in place; all other rows are untouched). -/
def replaceFirst {α : Type} (p : α → Bool) (a : α) : List α → List α
  | [] => []
  | r :: rs => if p r then a :: rs else r :: replaceFirst p a rs

/-! ## Users (src/12.03.2025/inn.py) -/

namespace Inn

inductive Gender where
  | MALE
  | FEMALE
deriving DecidableEq, Repr

def Gender.toString : Gender → String
  | .MALE => "MALE"
  | .FEMALE => "FEMALE"

/-- Row of the `users` table (`UserDB`); the enum column stores the string value. -/
structure UserDB where
  inn : String
  gender : String
  name : String
  first_name : String
  last_name : String
  address : String
deriving DecidableEq, Repr

/-- Pydantic model `User_inn`. -/
structure User_inn where
  inn : String
  gender : Gender
  name : String
  first_name : String
  last_name : String
  address : String
deriving DecidableEq, Repr

/-- `validate_inn`: digits only (Python `str.isdigit` is false on the empty
string), and length 10 or 12. -/
def validate_inn (inn : String) : Except String String :=
  if inn.length == 0 || !(inn.data.all Char.isDigit) then
    .error "ИНН должен состоять только из цифр"
  else if inn.length != 10 && inn.length != 12 then
    .error "ИНН должен состоять из 10 или 12 цифр"
  else
    .ok inn

def User_inn.toDB (u : User_inn) : UserDB :=
  ⟨u.inn, u.gender.toString, u.name, u.first_name, u.last_name, u.address⟩

/-- GET `/User`: chain of optional equality filters over the users table. -/
def get_user (user_inn user_name user_first_name user_last_name user_address
    user_gender : Option String) (db : List UserDB) : List UserDB :=
  let q := db
  let q := filterIf user_inn (·.inn) q
  let q := filterIf user_name (·.name) q
  let q := filterIf user_first_name (·.first_name) q
  let q := filterIf user_last_name (·.last_name) q
  let q := filterIf user_address (·.address) q
  let q := filterIf user_gender (·.gender) q
  q

/-- POST `/User`: conflict message if a row with the same inn exists, else insert. -/
def create_user (new_user : User_inn) (db : List UserDB) : String × List UserDB :=
  match db.find? (fun r => r.inn == new_user.inn) with
  | some _ => ("Пользователь с таким ИНН уже существует", db)
  | none => ("Пользователь успешно создан", db ++ [new_user.toDB])

/-- PUT `/User/{user_inn}`: identity-mismatch check, then must-exist check,
then in-place rewrite of the fetched row. -/
def update_user (user_inn : String) (new_user : User_inn) (db : List UserDB) :
    String × List UserDB :=
  if user_inn != new_user.inn then
    ("ИНН в теле запроса не совпадает с указанным в пути", db)
  else
    match db.find? (fun r => r.inn == user_inn) with
    | none => ("Пользователя с таким ИНН не существует", db)
    | some _ =>
        ("Пользователь успешно обновлён",
          replaceFirst (fun r => r.inn == user_inn) new_user.toDB db)

/-- DELETE `/User/{user_inn}`: must-exist check, then remove the fetched row. -/
def delete_user (user_inn : String) (db : List UserDB) : String × List UserDB :=
  match db.find? (fun r => r.inn == user_inn) with
  | none => ("Пользователя с таким ИНН не существует", db)
  | some _ => ("Пользователь с таким ИНН удалён", db.eraseP (fun r => r.inn == user_inn))

/-- Store states reachable from the empty users table by any sequence of
create, update and delete calls. -/
inductive ReachableUserStore : List UserDB → Prop where
  | empty : ReachableUserStore []
  | create (u : User_inn) {db : List UserDB} :
      ReachableUserStore db → ReachableUserStore (create_user u db).2
  | update (k : String) (u : User_inn) {db : List UserDB} :
      ReachableUserStore db → ReachableUserStore (update_user k u db).2
  | delete (k : String) {db : List UserDB} :
      ReachableUserStore db → ReachableUserStore (delete_user k db).2

end Inn

/-! ## Books (src/13.03.2025/Book.py) -/

namespace BookMod

inductive Genre where
  | FICTION
  | NON_FICTION
  | SCIENCE
deriving DecidableEq, Repr

/-- Pydantic model `Book`. -/
structure Book where
  isbn : String
  genre : Genre
  title : String
  author : String
  pages : Int
deriving DecidableEq, Repr

/-- `validate_isbn`: digits only (`str.isdigit` is false on the empty string),
and length 10 or 13. -/
def validate_isbn (isbn : String) : Except String String :=
  if isbn.length == 0 || !(isbn.data.all Char.isDigit) then
    .error "ISBN должен состоять только из цифр"
  else if isbn.length != 10 && isbn.length != 13 then
    .error "ISBN должен состоять из 10 или 13 цифр"
  else
    .ok isbn

/-- `validate_pages`: must be positive. -/
def validate_pages (pages : Int) : Except String Int :=
  if pages ≤ 0 then
    .error "Количество страниц должно быть больше 0"
  else
    .ok pages

/-- Pydantic validation of a `Book` candidate: each declared field's validator
runs (fields without a validator always pass); failures of all fields are
collected in declaration order; an entity is produced only when no field
failed. -/
def Book.validate (isbn : String) (genre : Genre) (title author : String) (pages : Int) :
    Except (List ValidationFailure) Book :=
  let errs := collectErr "isbn" (validate_isbn isbn) ++ collectErr "pages" (validate_pages pages)
  if errs.isEmpty then .ok ⟨isbn, genre, title, author, pages⟩ else .error errs

end BookMod

/-! ## Tasks (src/15.03.2025/To_Do_List.py) -/

namespace ToDoList

inductive TaskStatus where
  | PENDING
  | IN_PROGRESS
  | COMPLETED
deriving DecidableEq, Repr

inductive TaskPriority where
  | LOW
  | MEDIUM
  | HIGH
deriving DecidableEq, Repr

def TaskStatus.toString : TaskStatus → String
  | .PENDING => "PENDING"
  | .IN_PROGRESS => "IN_PROGRESS"
  | .COMPLETED => "COMPLETED"

def TaskPriority.toString : TaskPriority → String
  | .LOW => "LOW"
  | .MEDIUM => "MEDIUM"
  | .HIGH => "HIGH"

/-- Row of the `tasks` table; enum columns store the string value, the
datetime column is modelled as an integer timestamp. -/
structure TaskDB where
  task_id : String
  status : String
  description : String
  priority : String
  created_at : Int
deriving DecidableEq, Repr

/-- Pydantic model `Task`. -/
structure Task where
  task_id : String
  status : TaskStatus
  description : String
  priority : TaskPriority
  created_at : Int
deriving DecidableEq, Repr

def Task.toDB (t : Task) : TaskDB :=
  ⟨t.task_id, t.status.toString, t.description, t.priority.toString, t.created_at⟩

/-- GET `/tasks`: optional equality filters on task_id, status and priority. -/
def get_tasks (task_id status priority : Option String) (db : List TaskDB) : List TaskDB :=
  let q := db
  let q := filterIf task_id (·.task_id) q
  let q := filterIf status (·.status) q
  let q := filterIf priority (·.priority) q
  q

/-- Body of FastAPI's `{"message": ...}` responses. -/
structure MessageResponse where
  message : String
deriving DecidableEq, Repr

/-- PUT `/tasks/{task_id}`: identity-mismatch check (HTTP 400), must-exist
check (HTTP 404), then in-place rewrite of the fetched row. -/
def update_task (task_id : String) (task : Task) (db : List TaskDB) :
    Except HTTPError MessageResponse × List TaskDB :=
  if task_id != task.task_id then
    (.error ⟨400, "ID задачи в пути и теле запроса не совпадают"⟩, db)
  else
    match db.find? (fun r => r.task_id == task_id) with
    | none => (.error ⟨404, "Задача не найдена"⟩, db)
    | some _ =>
        (.ok ⟨"Задача успешно обновлена"⟩,
          replaceFirst (fun r => r.task_id == task_id) task.toDB db)

end ToDoList

/-! ## Minerals (src/18.03.2025/catalog.py) -/

namespace Catalog

inductive RarityType where
  | COMMON
  | UNCOMMON
  | RARE
  | EXTREMELY_RARE
deriving DecidableEq, Repr

def RarityType.toString : RarityType → String
  | .COMMON => "COMMON"
  | .UNCOMMON => "UNCOMMON"
  | .RARE => "RARE"
  | .EXTREMELY_RARE => "EXTREMELY_RARE"

/-- Row of the `minerals` table; floats are modelled as rationals. -/
structure MineralDB where
  catalog_id : String
  name : String
  chemical_formula : String
  hardness : Rat
  weight_carats : Rat
  rarity : String
  origin_country : String
  specimens_count : Int
deriving DecidableEq, Repr

/-- Pydantic model `Mineral`. -/
structure Mineral where
  catalog_id : String
  name : String
  chemical_formula : String
  hardness : Rat
  weight_carats : Rat
  rarity : RarityType
  origin_country : String
  specimens_count : Int
deriving DecidableEq, Repr

def Mineral.toDB (m : Mineral) : MineralDB :=
  ⟨m.catalog_id, m.name, m.chemical_formula, m.hardness, m.weight_carats,
    m.rarity.toString, m.origin_country, m.specimens_count⟩

/-- The regex `^[A-Z]{2}-\d{4}$` as a full match on the string: exactly two
ASCII uppercase letters, a hyphen, and four ASCII digits. -/
def matchesCatalogIdPattern (s : String) : Bool :=
  match s.toList with
  | [a, b, h, d1, d2, d3, d4] =>
      a.isUpper && b.isUpper && h == '-' && d1.isDigit && d2.isDigit && d3.isDigit && d4.isDigit
  | _ => false

def validator_catalog_id (catalog_id : String) : Except String String :=
  if !matchesCatalogIdPattern catalog_id then
    .error "ID каталога должен иметь формат XX-1234 (две буквы, дефис, четыре цифры)"
  else
    .ok catalog_id

def validator_name (name : String) : Except String String :=
  if (pyStrip name).length < 3 then
    .error "Название минерала должно содержать минимум 3 символа"
  else
    .ok name

/-- `re.search` for a letter and for a digit anywhere in the formula. -/
def validator_formula (chemical_formula : String) : Except String String :=
  if !(chemical_formula.data.any Char.isAlpha) || !(chemical_formula.data.any Char.isDigit) then
    .error "Химическая формула должна содержать буквы и цифры"
  else
    .ok chemical_formula

def validator_hardness (hardness : Rat) : Except String Rat :=
  if hardness < 1 || hardness > 10 then
    .error "Твердость по шкале Мооса должна быть от 1 до 10"
  else
    .ok hardness

def validator_weight (weight_carats : Rat) : Except String Rat :=
  if weight_carats ≤ 0 then
    .error "Вес в каратах должен быть положительным числом"
  else
    .ok weight_carats

def validator_country (origin_country : String) : Except String String :=
  if (pyStrip origin_country).length < 2 then
    .error "Название страны должно содержать минимум 2 символа"
  else
    .ok origin_country

def validator_count (specimens_count : Int) : Except String Int :=
  if specimens_count < 0 then
    .error "Количество образцов не может быть отрицательным"
  else
    .ok specimens_count

/-- Pydantic validation of a `Mineral` candidate: every declared field's
validator runs; failures of all fields are collected in declaration order;
an entity is produced only when no field failed. -/
def Mineral.validate (catalog_id name chemical_formula : String)
    (hardness weight_carats : Rat) (rarity : RarityType) (origin_country : String)
    (specimens_count : Int) : Except (List ValidationFailure) Mineral :=
  let errs :=
    collectErr "catalog_id" (validator_catalog_id catalog_id)
    ++ collectErr "name" (validator_name name)
    ++ collectErr "chemical_formula" (validator_formula chemical_formula)
    ++ collectErr "hardness" (validator_hardness hardness)
    ++ collectErr "weight_carats" (validator_weight weight_carats)
    ++ collectErr "origin_country" (validator_country origin_country)
    ++ collectErr "specimens_count" (validator_count specimens_count)
  if errs.isEmpty then
    .ok ⟨catalog_id, name, chemical_formula, hardness, weight_carats, rarity,
      origin_country, specimens_count⟩
  else
    .error errs

/-- Body of the mineral create/update responses: `{"message": ..., "data": mineral}`. -/
structure MineralResponse where
  message : String
  data : Mineral
deriving DecidableEq, Repr

/-- POST `/minerals`: HTTP 400 if a row with the same catalog_id exists,
else insert and return the confirmation together with the created entity. -/
def create_mineral (mineral : Mineral) (db : List MineralDB) :
    Except HTTPError MineralResponse × List MineralDB :=
  match db.find? (fun r => r.catalog_id == mineral.catalog_id) with
  | some _ => (.error ⟨400, "Минерал с таким ID каталога уже существует"⟩, db)
  | none =>
      (.ok ⟨"Минерал успешно добавлен в коллекцию", mineral⟩, db ++ [mineral.toDB])

end Catalog

/-! ## Missions (src/20.03.2025/Mission.py) -/

namespace MissionMod

inductive MissionType where
  | ORBITAL
  | LUNAR
  | MARS
  | DEEP_SPACE
deriving DecidableEq, Repr

def MissionType.toString : MissionType → String
  | .ORBITAL => "ORBITAL"
  | .LUNAR => "LUNAR"
  | .MARS => "MARS"
  | .DEEP_SPACE => "DEEP_SPACE"

/-- Row of the `missions` table; the datetime column is an integer timestamp. -/
structure MissionDB where
  mission_code : String
  mission_name : String
  launch_site : String
  launch_date : Int
  mission_type : String
  spacecraft : String
  crew_size : Int
deriving DecidableEq, Repr

/-- Pydantic model `Mission`. -/
structure Mission where
  mission_code : String
  mission_name : String
  launch_site : String
  launch_date : Int
  mission_type : MissionType
  spacecraft : String
  crew_size : Int
deriving DecidableEq, Repr

def Mission.toDB (m : Mission) : MissionDB :=
  ⟨m.mission_code, m.mission_name, m.launch_site, m.launch_date,
    m.mission_type.toString, m.spacecraft, m.crew_size⟩

/-- Body of the mission update response: `{"message": ..., "data": mission.dict()}`. -/
structure MissionResponse where
  message : String
  data : Mission
deriving DecidableEq, Repr

/-- PUT `/missions/{mission_code}`: identity-mismatch check (HTTP 400),
must-exist check (HTTP 404), then in-place rewrite of the fetched row. -/
def update_mission (mission_code : String) (mission : Mission) (db : List MissionDB) :
    Except HTTPError MissionResponse × List MissionDB :=
  if mission_code != mission.mission_code then
    (.error ⟨400, "Код миссии в пути и теле запроса не совпадают"⟩, db)
  else
    match db.find? (fun r => r.mission_code == mission_code) with
    | none => (.error ⟨404, "Миссия не найдена"⟩, db)
    | some _ =>
        (.ok ⟨"Информация о миссии успешно обновлена", mission⟩,
          replaceFirst (fun r => r.mission_code == mission_code) mission.toDB db)

end MissionMod

/-! ## Drone flights (src/21.03.2025/dron.py) -/

namespace Dron

inductive CargoType where
  | MEDICAL
  | FOOD
  | ELECTRONICS
  | DOCUMENTS
deriving DecidableEq, Repr

def CargoType.toString : CargoType → String
  | .MEDICAL => "MEDICAL"
  | .FOOD => "FOOD"
  | .ELECTRONICS => "ELECTRONICS"
  | .DOCUMENTS => "DOCUMENTS"

/-- Row of the `flights` table. -/
structure FlightDB where
  flight_id : String
  drone_id : String
  departure_point : String
  destination : String
  departure_time : Int
  cargo_type : String
  cargo_weight_kg : Rat
  max_altitude_m : Int
deriving DecidableEq, Repr

/-- Body of the flight delete response: `{"message": ..., "data": {"flight_id": ...}}`. -/
structure FlightDeleteResponse where
  message : String
  data_flight_id : String
deriving DecidableEq, Repr

/-- DELETE `/flights/{flight_id}`: must-exist check (HTTP 404), then remove
the fetched row and confirm with the removed identity. -/
def delete_flight (flight_id : String) (db : List FlightDB) :
    Except HTTPError FlightDeleteResponse × List FlightDB :=
  match db.find? (fun r => r.flight_id == flight_id) with
  | none => (.error ⟨404, "Полет не найден"⟩, db)
  | some _ =>
      (.ok ⟨"Полет успешно отменен", flight_id⟩,
        db.eraseP (fun r => r.flight_id == flight_id))

end Dron

/-! ## Concrete sample values used by witnesses and counterexamples -/

/-- A user whose inn passes `validate_inn` (10 digits). -/
def sampleUser : Inn.User_inn :=
  ⟨"1234567890", .MALE, "Ivan", "Ivan", "Ivanov", "Moscow"⟩

/-- Same identity as `sampleUser` but a different name field. -/
def sampleUser2 : Inn.User_inn :=
  ⟨"1234567890", .MALE, "Petr", "Ivan", "Ivanov", "Moscow"⟩

/-- A task row stored in the tasks table. -/
def sampleTaskRow : ToDoList.TaskDB :=
  ⟨"abc123", "PENDING", "write the report", "HIGH", 100⟩

/-- A task entity with the same identity as `sampleTaskRow`. -/
def sampleTask : ToDoList.Task :=
  ⟨"abc123", .PENDING, "write the report", .HIGH, 100⟩

/-- A mineral whose fields all pass validation, with catalog id "AB-1234". -/
def sampleMineral : Catalog.Mineral :=
  ⟨"AB-1234", "Quartz", "SiO2", 7, 100, .COMMON, "Brazil", 5⟩

/-- A mission with code "RU-2025-A". -/
def sampleMission : MissionMod.Mission :=
  ⟨"RU-2025-A", "Lunar Base", "Baikonur", 1000, .LUNAR, "Soyuz", 3⟩

/-- Same mission but with body identity "RU-2025-B". -/
def sampleMissionB : MissionMod.Mission :=
  ⟨"RU-2025-B", "Lunar Base", "Baikonur", 1000, .LUNAR, "Soyuz", 3⟩

/-- Truth of one optional equality filter on one field value: a missing or
empty-string filter imposes no constraint, a non-empty one demands equality.
This is the per-field semantics the chained `filterIf` calls implement. -/
def optMatch (f : Option String) (v : String) : Bool :=
  match f with
  | none => true
  | some s => s == "" || v == s

/-! ## Helper lemmas -/

theorem find?_eq_none_of_not_mem {α : Type} (f : α → String) (k : String) (db : List α)
    (h : ∀ r ∈ db, f r ≠ k) : db.find? (fun r => f r == k) = none := by
  rw [List.find?_eq_none]
  intro r hr
  simpa using h r hr

theorem find?_isSome_of_mem {α : Type} (f : α → String) (k : String) (db : List α)
    (h : ∃ r ∈ db, f r = k) : ∃ v, db.find? (fun r => f r == k) = some v := by
  rcases h with ⟨r, hr, hk⟩
  have : (db.find? (fun r => f r == k)).isSome := by
    rw [List.find?_isSome]
    exact ⟨r, hr, by simpa using hk⟩
  exact Option.isSome_iff_exists.mp this

theorem mem_filterIf {α : Type} (f : Option String) (proj : α → String) (q : List α) (r : α) :
    r ∈ filterIf f proj q ↔ r ∈ q ∧ optMatch f (proj r) = true := by
  cases f with
  | none => simp [filterIf, optMatch]
  | some s =>
    by_cases hs : s = ""
    · subst hs
      simp [filterIf, optMatch]
    · simp [filterIf, optMatch, hs, List.mem_filter]

theorem create_user_of_absent (u : Inn.User_inn) (db : List Inn.UserDB)
    (hfree : ∀ r ∈ db, r.inn ≠ u.inn) :
    Inn.create_user u db = ("Пользователь успешно создан", db ++ [u.toDB]) := by
  unfold Inn.create_user
  rw [find?_eq_none_of_not_mem (·.inn) u.inn db hfree]

theorem create_user_of_present (u : Inn.User_inn) (db : List Inn.UserDB)
    (hex : ∃ r ∈ db, r.inn = u.inn) :
    Inn.create_user u db = ("Пользователь с таким ИНН уже существует", db) := by
  obtain ⟨v, hv⟩ := find?_isSome_of_mem (·.inn) u.inn db hex
  unfold Inn.create_user
  rw [hv]

theorem delete_user_of_present (k : String) (db : List Inn.UserDB)
    (hex : ∃ r ∈ db, r.inn = k) :
    Inn.delete_user k db =
      ("Пользователь с таким ИНН удалён", db.eraseP (fun r => r.inn == k)) := by
  obtain ⟨v, hv⟩ := find?_isSome_of_mem (·.inn) k db hex
  unfold Inn.delete_user
  rw [hv]

/-! ## Claim theorems -/

/-- C1: for the user resource, if a stored record already exists under the
identity then create returns the conflict outcome and leaves the store
unmodified; starting from a store free of the identity, create succeeds, a
second create returns the conflict outcome without altering the store, the
subsequent delete succeeds, and after it create succeeds again. -/
theorem c1_create_conflict_delete_cycle (u : Inn.User_inn) (db : List Inn.UserDB)
    (hfree : ∀ r ∈ db, r.inn ≠ u.inn) :
    (∀ db' : List Inn.UserDB, (∃ r ∈ db', r.inn = u.inn) →
      Inn.create_user u db' = ("Пользователь с таким ИНН уже существует", db')) ∧
    (Inn.create_user u db).1 = "Пользователь успешно создан" ∧
    Inn.create_user u (Inn.create_user u db).2 =
      ("Пользователь с таким ИНН уже существует", (Inn.create_user u db).2) ∧
    (Inn.delete_user u.inn (Inn.create_user u db).2).1 = "Пользователь с таким ИНН удалён" ∧
    (Inn.create_user u (Inn.delete_user u.inn (Inn.create_user u db).2).2).1 =
      "Пользователь успешно создан" := by
  have hc1 := create_user_of_absent u db hfree
  have hmem : ∃ r ∈ db ++ [u.toDB], r.inn = u.inn :=
    ⟨u.toDB, by simp, rfl⟩
  have hdel := delete_user_of_present u.inn (db ++ [u.toDB]) hmem
  have herase : (db ++ [u.toDB]).eraseP (fun r => r.inn == u.inn) = db := by
    rw [List.eraseP_append_right]
    · simp [List.eraseP_cons, Inn.User_inn.toDB]
    · intro b hb
      simpa using hfree b hb
  refine ⟨fun db' hex => create_user_of_present u db' hex, ?_, ?_, ?_, ?_⟩
  · rw [hc1]
  · rw [hc1]
    exact create_user_of_present u (db ++ [u.toDB]) hmem
  · rw [hc1]
    rw [hdel]
  · rw [hc1, hdel, herase, hc1]

/-- Witness for C1 at a concrete user and the empty store. -/
theorem c1_witness :
    Inn.create_user sampleUser [sampleUser.toDB] =
      ("Пользователь с таким ИНН уже существует", [sampleUser.toDB]) ∧
    (Inn.create_user sampleUser []).1 = "Пользователь успешно создан" := by
  have h := c1_create_conflict_delete_cycle sampleUser [] (by simp)
  exact ⟨h.1 [sampleUser.toDB] ⟨sampleUser.toDB, by simp, rfl⟩, h.2.1⟩

/-- C2: when the path identity differs from the entity body's own identity,
update returns the identity-mismatch outcome and leaves the store untouched,
regardless of the store contents — shown for the mission resource and, in the
second conjunct, for the user resource. -/
theorem c2_update_identity_mismatch (k1 : String) (m : MissionMod.Mission)
    (db : List MissionMod.MissionDB) (hne : k1 ≠ m.mission_code) :
    MissionMod.update_mission k1 m db =
      (.error ⟨400, "Код миссии в пути и теле запроса не совпадают"⟩, db) ∧
    ∀ (k : String) (u : Inn.User_inn) (udb : List Inn.UserDB), k ≠ u.inn →
      Inn.update_user k u udb =
        ("ИНН в теле запроса не совпадает с указанным в пути", udb) := by
  constructor
  · unfold MissionMod.update_mission
    simp [hne]
  · intro k u udb hk
    unfold Inn.update_user
    simp [hk]

/-- Witness for C2: path identity "RU-2025-A" against body identity
"RU-2025-B", over a store holding the record under "RU-2025-A". -/
theorem c2_witness :
    MissionMod.update_mission "RU-2025-A" sampleMissionB [sampleMission.toDB] =
      (.error ⟨400, "Код миссии в пути и теле запроса не совпадают"⟩,
        [sampleMission.toDB]) :=
  (c2_update_identity_mismatch "RU-2025-A" sampleMissionB [sampleMission.toDB]
    (by decide)).1

/-- C3: on an identity with no stored record, update (with a matching body
identity) returns the not-found outcome and delete returns the not-found
outcome, and in both cases the store is unchanged — shown for the task
resource's update and the flight resource's delete. -/
theorem c3_absent_update_delete_not_found (k : String) (t : ToDoList.Task)
    (db : List ToDoList.TaskDB) (hk : t.task_id = k)
    (habs : ∀ r ∈ db, r.task_id ≠ k)
    (k2 : String) (db2 : List Dron.FlightDB)
    (habs2 : ∀ r ∈ db2, r.flight_id ≠ k2) :
    ToDoList.update_task k t db = (.error ⟨404, "Задача не найдена"⟩, db) ∧
    Dron.delete_flight k2 db2 = (.error ⟨404, "Полет не найден"⟩, db2) := by
  constructor
  · have hf := find?_eq_none_of_not_mem (·.task_id) k db habs
    unfold ToDoList.update_task
    simp [hk, hf]
  · have hf := find?_eq_none_of_not_mem (·.flight_id) k2 db2 habs2
    unfold Dron.delete_flight
    rw [hf]

/-- Witness for C3 at concrete identities and empty stores; the flight
identity is the spec's scenario value "FL-00001-A". -/
theorem c3_witness :
    ToDoList.update_task "abc123" sampleTask [] =
      (.error ⟨404, "Задача не найдена"⟩, []) ∧
    Dron.delete_flight "FL-00001-A" [] = (.error ⟨404, "Полет не найден"⟩, []) :=
  c3_absent_update_delete_not_found "abc123" sampleTask [] rfl (by simp)
    "FL-00001-A" [] (by simp)

/-- C4: starting from a store with no record under a valid entity's identity,
create followed by listing with the single identity equality filter returns
exactly the one created record, whose fields are the entity's fields. -/
theorem c4_create_then_list_roundtrip (u : Inn.User_inn) (db : List Inn.UserDB)
    (hvalid : Inn.validate_inn u.inn = .ok u.inn)
    (hfree : ∀ r ∈ db, r.inn ≠ u.inn) :
    Inn.get_user (some u.inn) none none none none none (Inn.create_user u db).2 =
      [u.toDB] := by
  have hne : u.inn ≠ "" := by
    intro h
    rw [h] at hvalid
    exact absurd hvalid (by decide)
  rw [create_user_of_absent u db hfree]
  unfold Inn.get_user
  simp only [filterIf]
  rw [if_neg hne, List.filter_append]
  have h1 : db.filter (fun r => r.inn == u.inn) = [] := by
    rw [List.filter_eq_nil_iff]
    intro r hr
    simpa using hfree r hr
  have h2 : [u.toDB].filter (fun r => r.inn == u.inn) = [u.toDB] := by
    simp [Inn.User_inn.toDB]
  rw [h1, h2]
  rfl

/-- Witness for C4: a ten-digit valid user created into the empty store. -/
theorem c4_witness :
    Inn.get_user (some sampleUser.inn) none none none none none
      (Inn.create_user sampleUser []).2 = [sampleUser.toDB] :=
  c4_create_then_list_roundtrip sampleUser [] (by decide) (by simp)

/-- C5 counterexample: a list call whose supplied task_id filter value is the
empty string returns a record whose task_id is not the empty string, so the
result is not "exactly those records whose fields equal every supplied filter
value". -/
theorem c5_counterexample :
    ToDoList.get_tasks (some "") none none [sampleTaskRow] = [sampleTaskRow] ∧
    sampleTaskRow.task_id ≠ "" := by
  constructor
  · rfl
  · decide

/-- C5 amended: the result of a list call contains exactly those stored
records that satisfy every supplied non-empty filter value by equality;
omitted filters and supplied empty-string filters impose no constraint, and
the empty filter set returns all records — shown for the task resource's
three filterable fields and the user resource's six filterable fields. -/
theorem c5_list_equality_filter_semantics (fid fstatus fprio : Option String)
    (db : List ToDoList.TaskDB) (r : ToDoList.TaskDB)
    (f1 f2 f3 f4 f5 f6 : Option String) (udb : List Inn.UserDB) (u : Inn.UserDB) :
    (r ∈ ToDoList.get_tasks fid fstatus fprio db ↔
      r ∈ db ∧ optMatch fid r.task_id = true ∧ optMatch fstatus r.status = true ∧
        optMatch fprio r.priority = true) ∧
    ToDoList.get_tasks none none none db = db ∧
    (u ∈ Inn.get_user f1 f2 f3 f4 f5 f6 udb ↔
      u ∈ udb ∧ optMatch f1 u.inn = true ∧ optMatch f2 u.name = true ∧
        optMatch f3 u.first_name = true ∧ optMatch f4 u.last_name = true ∧
        optMatch f5 u.address = true ∧ optMatch f6 u.gender = true) := by
  refine ⟨?_, ?_, ?_⟩
  · unfold ToDoList.get_tasks
    simp only [mem_filterIf]
    tauto
  · rfl
  · unfold Inn.get_user
    simp only [mem_filterIf]
    tauto

/-- C6 counterexample: two distinct valid users yield literally identical
outcomes from a successful create — the returned value is the fixed
confirmation string alone, carrying none of the created entity's fields. -/
theorem c6_counterexample :
    sampleUser ≠ sampleUser2 ∧
    (Inn.create_user sampleUser []).1 = (Inn.create_user sampleUser2 []).1 ∧
    (Inn.create_user sampleUser []).1 = "Пользователь успешно создан" := by
  refine ⟨by decide, rfl, rfl⟩

/-- C6 amended: in the mineral, clock, mission and flight modules a
successful create returns the confirmation together with the created entity,
as shown here for minerals; the user, book, movie, task, event and login
modules return a confirmation message alone. -/
theorem c6_create_mineral_returns_entity (m : Catalog.Mineral)
    (db : List Catalog.MineralDB)
    (hfree : ∀ r ∈ db, r.catalog_id ≠ m.catalog_id) :
    Catalog.create_mineral m db =
      (.ok ⟨"Минерал успешно добавлен в коллекцию", m⟩, db ++ [m.toDB]) := by
  unfold Catalog.create_mineral
  rw [find?_eq_none_of_not_mem (·.catalog_id) m.catalog_id db hfree]

/-- Witness for the amended C6 at a concrete mineral and the empty store. -/
theorem c6_witness :
    Catalog.create_mineral sampleMineral [] =
      (.ok ⟨"Минерал успешно добавлен в коллекцию", sampleMineral⟩,
        [sampleMineral.toDB]) :=
  c6_create_mineral_returns_entity sampleMineral [] (by simp)

theorem validate_isbn_ok_shape (i v : String)
    (h : BookMod.validate_isbn i = .ok v) : v = i := by
  unfold BookMod.validate_isbn at h
  split at h
  · cases h
  · split at h
    · cases h
    · cases h
      rfl

theorem validate_pages_ok_shape (p v : Int)
    (h : BookMod.validate_pages p = .ok v) : v = p := by
  unfold BookMod.validate_pages at h
  split at h
  · cases h
  · cases h
    rfl

/-- C7: model validation evaluates all declared fields: a book whose isbn and
pages both fail yields a report naming each of the two fields with its own
message; and whenever validation produces an entity, every field's validator
accepted its value, so no entity is produced on any failure. -/
theorem c7_validation_reports_all_fields (isbn : String) (genre : BookMod.Genre)
    (title author : String) (pages : Int) (m1 m2 : String)
    (h1 : BookMod.validate_isbn isbn = .error m1)
    (h2 : BookMod.validate_pages pages = .error m2) :
    BookMod.Book.validate isbn genre title author pages =
      .error [⟨"isbn", m1⟩, ⟨"pages", m2⟩] ∧
    ∀ (i : String) (g : BookMod.Genre) (t a : String) (p : Int) (b : BookMod.Book),
      BookMod.Book.validate i g t a p = .ok b →
        BookMod.validate_isbn i = .ok i ∧ BookMod.validate_pages p = .ok p := by
  constructor
  · unfold BookMod.Book.validate
    rw [h1, h2]
    simp [collectErr]
  · intro i g t a p b hok
    unfold BookMod.Book.validate at hok
    rcases hi : BookMod.validate_isbn i with mi | vi
    · rw [hi] at hok
      simp [collectErr] at hok
    · rcases hp : BookMod.validate_pages p with mp | vp
      · rw [hi, hp] at hok
        simp [collectErr] at hok
      · have hvi := validate_isbn_ok_shape i vi hi
        have hvp := validate_pages_ok_shape p vp hp
        subst hvi
        subst hvp
        exact ⟨rfl, rfl⟩

/-- Witness for C7: isbn "12a" contains a non-digit and pages 0 is not
positive; validation reports both fields and produces no entity. -/
theorem c7_witness :
    BookMod.Book.validate "12a" .FICTION "Title" "Author" 0 =
      .error [⟨"isbn", "ISBN должен состоять только из цифр"⟩,
        ⟨"pages", "Количество страниц должно быть больше 0"⟩] :=
  (c7_validation_reports_all_fields "12a" .FICTION "Title" "Author" 0 _ _
    (by decide) (by decide)).1

/-- C8: mineral validation accepts the catalog id "AB-1234" so that creating
that mineral succeeds, and rejects the lowercase "ab-1234" with a validation
failure on the catalog id field. -/
theorem c8_catalog_id_format :
    Catalog.Mineral.validate "AB-1234" "Quartz" "SiO2" 7 100 .COMMON "Brazil" 5 =
      .ok sampleMineral ∧
    (Catalog.create_mineral sampleMineral []).1 =
      .ok ⟨"Минерал успешно добавлен в коллекцию", sampleMineral⟩ ∧
    Catalog.Mineral.validate "ab-1234" "Quartz" "SiO2" 7 100 .COMMON "Brazil" 5 =
      .error [⟨"catalog_id",
        "ID каталога должен иметь формат XX-1234 (две буквы, дефис, четыре цифры)"⟩] := by
  refine ⟨by decide, rfl, by decide⟩

theorem replaceFirst_map_eq {α β : Type} (p : α → Bool) (a : α) (f : α → β)
    (hf : ∀ r, p r = true → f r = f a) (l : List α) :
    (replaceFirst p a l).map f = l.map f := by
  induction l with
  | nil => rfl
  | cons r rs ih =>
    unfold replaceFirst
    by_cases hp : p r
    · simp [hp, hf r hp]
    · simp [hp, ih]

/-- C9: in every user-store state reachable from the empty store by any
sequence of create, update and delete calls, the stored identity values are
pairwise distinct — at most one stored record exists per identity. -/
theorem c9_at_most_one_record_per_identity (db : List Inn.UserDB)
    (h : Inn.ReachableUserStore db) : (db.map (fun r => r.inn)).Nodup := by
  induction h with
  | empty => simp
  | @create u db hdb ih =>
    rcases hfind : db.find? (fun r => r.inn == u.inn) with _ | v
    · have hnotin : u.inn ∉ db.map (fun r => r.inn) := by
        intro hmem
        rw [List.mem_map] at hmem
        obtain ⟨r, hr, hrinn⟩ := hmem
        have := List.find?_eq_none.mp hfind r hr
        simp [hrinn] at this
      unfold Inn.create_user
      rw [hfind]
      simp only [List.map_append, List.map_cons, List.map_nil]
      rw [List.nodup_append]
      refine ⟨ih, List.nodup_singleton _, ?_⟩
      intro x hx hx1
      have : x = u.inn := by simpa [Inn.User_inn.toDB] using hx1
      exact hnotin (this ▸ hx)
    · unfold Inn.create_user
      rw [hfind]
      exact ih
  | @update k u db hdb ih =>
    unfold Inn.update_user
    by_cases hk : k = u.inn
    · rcases hfind : db.find? (fun r => r.inn == k) with _ | v
      · simp only [hk, bne_self_eq_false, Bool.false_eq_true, if_false]
        rw [← hk, hfind]
        exact ih
      · simp only [hk, bne_self_eq_false, Bool.false_eq_true, if_false]
        rw [← hk, hfind]
        rw [replaceFirst_map_eq]
        · exact ih
        · intro r hr
          have : r.inn = k := by simpa using hr
          rw [this, hk, Inn.User_inn.toDB]
    · have hne : (k != u.inn) = true := by simpa using hk
      rw [if_pos hne]
      exact ih
  | @delete k db hdb ih =>
    unfold Inn.delete_user
    rcases hfind : db.find? (fun r => r.inn == k) with _ | v
    · rw [hfind]
      exact ih
    · rw [hfind]
      have hsub : List.Sublist
          ((db.eraseP (fun r => r.inn == k)).map (fun r => r.inn))
          (db.map (fun r => r.inn)) :=
        (db.eraseP_sublist).map _
      exact List.Nodup.sublist hsub ih

/-- Witness for C9 at the store reached by one successful create. -/
theorem c9_witness :
    (((Inn.create_user sampleUser []).2).map (fun r => r.inn)).Nodup :=
  c9_at_most_one_record_per_identity _
    (Inn.ReachableUserStore.create sampleUser Inn.ReachableUserStore.empty)

/-- C10: a supplied filter whose value is the empty string is treated exactly
like an omitted filter: it applies no equality constraint, so the call
returns all records that the remaining filters allow. -/
theorem c10_empty_string_filter_ignored (fstatus fprio : Option String)
    (db : List ToDoList.TaskDB) (udb : List Inn.UserDB) :
    ToDoList.get_tasks (some "") fstatus fprio db =
      ToDoList.get_tasks none fstatus fprio db ∧
    ToDoList.get_tasks (some "") (some "") (some "") db = db ∧
    Inn.get_user (some "") none none none none none udb = udb := by
  refine ⟨rfl, rfl, rfl⟩

end Spec2Proof
